import Mathlib

/-!
Verification of the collection-and-delivery pipeline of
`array-metrics-to-influxdb`.

The Python sources are shallowly embedded as Lean functions:

* `collector_base.py`: the retention table, the resolution-selection loop of
  `BaseCollector.influx_data`, and the constructor `BaseCollector.__init__`
  together with `validate_resolution`;
* `collector.py`: the `Controllers` collector (current-only sentinel);
* `main.py`: the per-collector loop of one `collect_thread` polling cycle and
  the `exit_handler` shutdown sequence;
* `influx.py`: one step of the `influxdb_writer` consumer loop and the loop
  itself.

Durations (`timedelta` values) are converted exactly to integer milliseconds.
Python `Optional[int]` values are `Option Nat`; Python truthiness of such a
value (`if min_resolution:`) is `pyTruthy`.
-/

namespace ArrayMetricsToInflux

/-- Python truthiness of an `Optional[int]`: `None` and `0` are falsy. -/
def pyTruthy : Option Nat → Bool
  | none => false
  | some m => m != 0

/-- `METRIC_RESOLUTION_TO_RETENTION_TIME` from `collector_base.py`:
resolution (ms) paired with its retention window, converted exactly to ms.
Python dicts preserve insertion order, so the list order is the literal's
order, finest resolution first.  The last entry is
`timedelta(days=365) * 100`. -/
def METRIC_RESOLUTION_TO_RETENTION_TIME : List (Nat × Nat) :=
  [ (1000, 3 * 60 * 60 * 1000),
    (30000, 3 * 60 * 60 * 1000),
    (300000, 24 * 60 * 60 * 1000),
    (1800000, 7 * 24 * 60 * 60 * 1000),
    (7200000, 30 * 24 * 60 * 60 * 1000),
    (28800000, 90 * 24 * 60 * 60 * 1000),
    (86400000, 100 * 365 * 24 * 60 * 60 * 1000) ]

/-- The `continue` guard of the selection loop in `BaseCollector.influx_data`:
`if self.min_resolution and resolution < self.min_resolution: continue`. -/
def skip_entry (min_resolution : Option Nat) (resolution : Nat) : Bool :=
  pyTruthy min_resolution && decide (resolution < min_resolution.getD 0)

/-- The `for resolution, retention_time in ...` loop of
`BaseCollector.influx_data` (collector_base.py lines 92-99), over an arbitrary
table: entries finer than the configured minimum are skipped; the first entry
whose retention is at least `start_time_delta` is selected; if the loop
finishes without a `break`, the variable keeps its initial value
`self.min_resolution`. -/
def select_resolution_from (min_resolution : Option Nat) (start_time_delta : Int) :
    List (Nat × Nat) → Option Nat
  | [] => min_resolution
  | (resolution, retention_time) :: rest =>
    if skip_entry min_resolution resolution then
      select_resolution_from min_resolution start_time_delta rest
    else if start_time_delta ≤ (retention_time : Int) then
      some resolution
    else
      select_resolution_from min_resolution start_time_delta rest

/-- Resolution selection of `BaseCollector.influx_data`, run over the actual
retention table.  `start_time_delta` is
`timedelta(milliseconds=int(time() * 1000) - start_time)` in ms (an `Int`,
since `start_time` may lie in the future). -/
def select_resolution (min_resolution : Option Nat) (start_time_delta : Int) :
    Option Nat :=
  select_resolution_from min_resolution start_time_delta
    METRIC_RESOLUTION_TO_RETENTION_TIME

/-- A table entry usable for configured minimum `m` and look-back `delta`:
not finer than the minimum, and retention covering the look-back. -/
def qualifies (m : Nat) (delta : Int) (e : Nat × Nat) : Bool :=
  decide (m ≤ e.1) && decide (delta ≤ (e.2 : Int))

/-- The `assert min_resolution` at the end of the selection in
`BaseCollector.influx_data`: an `AssertionError` (modelled as `none`) when the
selected value is falsy (`None`; `0` never occurs in the table). -/
def assert_truthy (r : Option Nat) : Option Nat :=
  if pyTruthy r then r else none

/-- Outcome of `BaseCollector.__init__` (collector_base.py lines 45-67)
together with `validate_resolution` (lines 79-82), restricted to the
`min_resolution` field it establishes.  `RESOLUTIONS` is the class tuple,
`[none]` for current-only collectors.  A falsy override (absent or `0`) falls
back to `RESOLUTIONS[0]`, which raises `IndexError` on an empty tuple (never
the case for the shipped collectors). -/
inductive InitResult where
  | ok (min_resolution : Option Nat)
  | valueError
  | indexError
  deriving DecidableEq

/-- `BaseCollector.__init__`: validate a truthy override against
`RESOLUTIONS` and store it, otherwise store `RESOLUTIONS[0]`. -/
def BaseCollector.init (RESOLUTIONS : List (Option Nat))
    (min_resolution : Option Nat) : InitResult :=
  if pyTruthy min_resolution then
    if min_resolution ∈ RESOLUTIONS then InitResult.ok min_resolution
    else InitResult.valueError
  else
    match RESOLUTIONS.head? with
    | some r => InitResult.ok r
    | none => InitResult.indexError

/-! ## The `Controllers` collector (collector.py lines 207-236) -/

/-- A query issued against the FlashArray client.  `Controllers.get_response`
calls `get_controllers()`; the historical collectors pass `start_time` and
`resolution` through to their endpoint. -/
inductive FAQuery where
  | get_controllers
  | historical (endpoint : String) (start_time : Int) (resolution : Nat)
  deriving DecidableEq

/-- `Controllers.RESOLUTIONS = (None,)`: the current-only sentinel. -/
def Controllers.RESOLUTIONS : List (Option Nat) := [none]

/-- `Controllers.get_response`: returns `self.fa_client.get_controllers()`,
ignoring both `start_time` and `resolution`. -/
def Controllers.get_response (start_time : Int) (resolution : Nat) : FAQuery :=
  FAQuery.get_controllers

/-- The query issued by `BaseCollector.influx_data` for a `Controllers`
instance built without an override (`min_resolution = RESOLUTIONS[0] = None`):
run the selection loop, apply the assert, then call `get_response` with the
selected resolution.  `none` models the `AssertionError` path. -/
def Controllers.influx_data_query (start_time : Int) (start_time_delta : Int) :
    Option FAQuery :=
  match assert_truthy (select_resolution none start_time_delta) with
  | some r => some (Controllers.get_response start_time r)
  | none => none

/-! ## Data points and the shared queue (influx.py) -/

/-- A field value of an `InfluxDataPoint`
(`Union[int, float, str, bool]`; `float` fields are carried opaquely as their
decimal text, the pipeline never inspects field values). -/
inductive FieldValue where
  | int (i : Int)
  | float (repr : String)
  | str (s : String)
  | bool (b : Bool)
  deriving DecidableEq

/-- `InfluxDataPoint` from influx.py: measurement, tags, timestamp (ms),
fields. -/
structure InfluxDataPoint where
  measurement : String
  tags : List (String × String)
  time : Int
  fields : List (String × FieldValue)
  deriving DecidableEq

/-- An item of the shared `InfluxDataQueue`: a list of data points put by a
collector thread, or `WriterThreadSignal.STOP` put by the exit handler. -/
inductive QueueItem where
  | batch (points : List InfluxDataPoint)
  | stopSignal
  deriving DecidableEq

/-! ## One polling cycle of `collect_thread` (main.py lines 297-319) -/

/-- What one `collector.influx_data(start_time=...)` call does inside the
per-collector loop of `collect_thread`: either the materialised list of
points, or it raises (`PureErrorResponse`, or any other exception). -/
inductive CollectorOutcome where
  | ok (points : List InfluxDataPoint)
  | pureErrorResponse
  | otherException
  deriving DecidableEq

/-- The sequence of `queue.put(...)` calls performed by the per-collector loop
of `collect_thread` in one polling cycle, given the outcome of each collector
in configured order: both `except` arms log and `continue`, every successful
collector's point list is put on the queue unconditionally. -/
def collect_cycle_puts : List CollectorOutcome → List (List InfluxDataPoint)
  | [] => []
  | CollectorOutcome.ok points :: rest => points :: collect_cycle_puts rest
  | CollectorOutcome.pureErrorResponse :: rest => collect_cycle_puts rest
  | CollectorOutcome.otherException :: rest => collect_cycle_puts rest

/-! ## The `influxdb_writer` consumer loop (influx.py lines 70-105) -/

/-- Outcome of one `client.write_points` call: success, or one of the four
caught exception classes (`InfluxDBClientError`, `InfluxDBServerError`,
`ConnectionError`, any other `Exception`). -/
inductive WriteOutcome where
  | success
  | clientError
  | serverError
  | connectionError
  | unknownException
  deriving DecidableEq

/-- Observable effect of one iteration of the `influxdb_writer` loop on one
dequeued item. -/
structure WriterStep where
  /-- number of `client.write_points` calls made for this item -/
  writes : Nat
  /-- whether the loop goes on to the next `queue.get()` -/
  continues : Bool
  /-- items put back onto the queue (the code never requeues) -/
  requeued : List QueueItem
  /-- whether `queue.task_done()` is called for this item -/
  taskDone : Bool
  deriving DecidableEq

/-- One iteration of the `influxdb_writer` loop body: `STOP` acknowledges and
breaks; an empty list is passed over; a non-empty list gets exactly one
`write_points` attempt whose four failure classes are all logged and
swallowed, the batch dropped either way. -/
def influxdb_writer_step (item : QueueItem) (outcome : WriteOutcome) :
    WriterStep :=
  match item with
  | QueueItem.stopSignal => { writes := 0, continues := false, requeued := [], taskDone := true }
  | QueueItem.batch [] => { writes := 0, continues := true, requeued := [], taskDone := true }
  | QueueItem.batch (_ :: _) =>
    match outcome with
    | WriteOutcome.success => { writes := 1, continues := true, requeued := [], taskDone := true }
    | WriteOutcome.clientError => { writes := 1, continues := true, requeued := [], taskDone := true }
    | WriteOutcome.serverError => { writes := 1, continues := true, requeued := [], taskDone := true }
    | WriteOutcome.connectionError => { writes := 1, continues := true, requeued := [], taskDone := true }
    | WriteOutcome.unknownException => { writes := 1, continues := true, requeued := [], taskDone := true }

/-- The items actually read (`queue.get()`) by the `influxdb_writer` loop when
the queue would serve the given stream of items (each with the write outcome
the sink would produce for it): the loop keeps reading until a step does not
continue. -/
def influxdb_writer_reads : List (QueueItem × WriteOutcome) → List QueueItem
  | [] => []
  | (item, outcome) :: rest =>
    if (influxdb_writer_step item outcome).continues then
      item :: influxdb_writer_reads rest
    else
      [item]

/-! ## `exit_handler` (main.py lines 210-237) -/

/-- The ordered observable actions of `exit_handler`. -/
inductive ShutdownEvent where
  /-- `SHOULD_STOP = True` -/
  | setShouldStop
  /-- `thread.join()` for every collector thread -/
  | joinCollectorThreads
  /-- `data_points_queue.join()`: wait until every enqueued item is consumed -/
  | queueJoin
  /-- `data_points_queue.put(WriterThreadSignal.STOP)` -/
  | putStopSignal
  /-- `influxdb_writer_thread.join()` -/
  | joinWriterThread
  /-- `exit(1)` -/
  | forceExit
  deriving DecidableEq

/-- `signal.SIGTERM` on Linux. -/
def SIGTERM : Nat := 15

/-- `signal.SIGINT` on Linux. -/
def SIGINT : Nat := 2

/-- `exit_handler(signum, frame)` as a function of the incoming signal number
and the current value of the global `SHOULD_STOP`: returns the ordered list of
actions performed, the new value of `SHOULD_STOP`, and the exit code when
`exit` is called.  A repeated termination signal exits 1 immediately; the
first one runs the full graceful sequence in source order. -/
def exit_handler (signum : Nat) (SHOULD_STOP : Bool) :
    List ShutdownEvent × Bool × Option Nat :=
  if signum = SIGTERM ∨ signum = SIGINT then
    if SHOULD_STOP then
      ([ShutdownEvent.forceExit], SHOULD_STOP, some 1)
    else
      ([ShutdownEvent.setShouldStop, ShutdownEvent.joinCollectorThreads,
        ShutdownEvent.queueJoin, ShutdownEvent.putStopSignal,
        ShutdownEvent.joinWriterThread], true, none)
  else
    ([], SHOULD_STOP, none)

/-- A concrete data point, used to instantiate witnesses. -/
def samplePoint : InfluxDataPoint :=
  { measurement := "arrays_performance",
    tags := [("host", "fa1")],
    time := 1633000000000,
    fields := [("reads_per_sec", FieldValue.int 5)] }

/-! ## Helper lemmas -/

/-- With a positive configured minimum, the selection loop returns exactly the
first table entry that the `find?` of `qualifies` locates. -/
theorem select_resolution_from_eq_find (m : Nat) (delta : Int) (hm : 0 < m) :
    ∀ (l : List (Nat × Nat)) (e : Nat × Nat),
      List.find? (qualifies m delta) l = some e →
      select_resolution_from (some m) delta l = some e.1 := by
  intro l
  induction l with
  | nil => intro e h; simp at h
  | cons hd tl ih =>
    intro e h
    obtain ⟨r, ret⟩ := hd
    by_cases hq : qualifies m delta (r, ret) = true
    · rw [List.find?_cons_of_pos _ hq] at h
      injection h with h
      subst h
      simp only [qualifies, Bool.and_eq_true, decide_eq_true_eq] at hq
      have hskip : skip_entry (some m) r = false := by
        simp only [skip_entry, pyTruthy, Option.getD_some]
        simp only [Bool.and_eq_false_iff, decide_eq_false_iff_not, Nat.not_lt]
        right; exact hq.1
      simp [select_resolution_from, hskip, hq.2]
    · rw [List.find?_cons_of_neg _ hq] at h
      by_cases hskip : skip_entry (some m) r = true
      · simp only [select_resolution_from, hskip, if_true]
        exact ih e h
      · rw [Bool.not_eq_true] at hskip
        have hmr : m ≤ r := by
          simp only [skip_entry, pyTruthy, Option.getD_some, Bool.and_eq_false_iff,
            bne_eq_false_iff_eq, decide_eq_false_iff_not, Nat.not_lt] at hskip
          rcases hskip with h0 | hle
          · omega
          · exact hle
        have hret : ¬(delta ≤ (ret : Int)) := by
          intro hc
          apply hq
          simp only [qualifies, Bool.and_eq_true, decide_eq_true_eq]
          exact ⟨hmr, hc⟩
        simp only [select_resolution_from, hskip, Bool.false_eq_true, if_false, hret]
        exact ih e h

/-- If no entry of a table has retention covering the look-back, the selection
loop never breaks and returns its initial value `min_resolution`. -/
theorem select_resolution_from_all_expired (min_resolution : Option Nat)
    (delta : Int) :
    ∀ l : List (Nat × Nat), (∀ e ∈ l, ¬(delta ≤ (e.2 : Int))) →
      select_resolution_from min_resolution delta l = min_resolution := by
  intro l
  induction l with
  | nil => intro _; rfl
  | cons hd tl ih =>
    intro h
    obtain ⟨r, ret⟩ := hd
    have hhd : ¬(delta ≤ ((r, ret).2 : Int)) := h (r, ret) (List.mem_cons_self _ _)
    have htl := fun e he => h e (List.mem_cons_of_mem _ he)
    by_cases hskip : skip_entry min_resolution r = true
    · simp only [select_resolution_from, hskip, if_true]
      exact ih htl
    · rw [Bool.not_eq_true] at hskip
      simp only [select_resolution_from, hskip, Bool.false_eq_true, if_false]
      rw [if_neg hhd]
      exact ih htl

/-! ## Claims -/

/-- Claim C1: for every look-back duration and every configured (positive)
minimum resolution, when at least one retention-table entry is at least the
minimum and has retention at least the look-back, the selection of
`BaseCollector.influx_data` returns the first such entry of the table walked
finest to coarsest; in particular the returned resolution is never finer than
the configured minimum. -/
theorem c1_selection_picks_first_qualifying_entry (m : Nat) (delta : Int)
    (hm : 0 < m)
    (hex : ∃ e ∈ METRIC_RESOLUTION_TO_RETENTION_TIME, qualifies m delta e = true) :
    ∃ e, List.find? (qualifies m delta) METRIC_RESOLUTION_TO_RETENTION_TIME = some e ∧
      select_resolution (some m) delta = some e.1 ∧ m ≤ e.1 := by
  have hsome :
      (List.find? (qualifies m delta) METRIC_RESOLUTION_TO_RETENTION_TIME).isSome := by
    rw [List.find?_isSome]
    obtain ⟨e, he, hq⟩ := hex
    exact ⟨e, he, hq⟩
  obtain ⟨e, he⟩ := Option.isSome_iff_exists.mp hsome
  refine ⟨e, he, select_resolution_from_eq_find m delta hm _ e he, ?_⟩
  have hq := List.find?_some he
  simp only [qualifies, Bool.and_eq_true, decide_eq_true_eq] at hq
  exact hq.1

/-- Witness for C1: a two-hour look-back with configured minimum 30 s selects
the (30 s, 3 h) entry — the first qualifying one, and not finer than 30 s. -/
theorem c1_selection_picks_first_qualifying_entry_witness :
    ∃ e, List.find? (qualifies 30000 7200000) METRIC_RESOLUTION_TO_RETENTION_TIME = some e ∧
      select_resolution (some 30000) 7200000 = some e.1 ∧ 30000 ≤ e.1 :=
  c1_selection_picks_first_qualifying_entry 30000 7200000 (by decide)
    ⟨(30000, 10800000), by decide, by decide⟩

/-- Claim C2 is false as stated: for a current-only collector
(`RESOLUTIONS = (None,)`, so `min_resolution = None`), the selection loop of
`influx_data` does choose a table resolution — for a two-hour look-back it
selects 1000 ms, not the "no resolution" sentinel. -/
theorem c2_counterexample :
    Controllers.RESOLUTIONS.head? = some none ∧
    select_resolution none 7200000 = some 1000 ∧
    select_resolution none 7200000 ≠ none := by
  decide

/-- Claim C2 amended: for a current-only collector the selection still picks a
table resolution (the finest whose retention covers the look-back), but
`Controllers.get_response` ignores `start_time` and `resolution`, so for every
look-back within the coarsest entry's retention the issued query is the
current-snapshot query `get_controllers`. -/
theorem c2_amended_current_only_query_independent_of_look_back
    (start_time : Int) (delta : Int) (h : delta ≤ 3153600000000) :
    Controllers.influx_data_query start_time delta = some FAQuery.get_controllers := by
  have hsel : ∃ r : Nat, r ≠ 0 ∧ select_resolution none delta = some r := by
    simp only [select_resolution, METRIC_RESOLUTION_TO_RETENTION_TIME,
      select_resolution_from, skip_entry, pyTruthy, Bool.false_and,
      Bool.false_eq_true, if_false]
    split_ifs with h1 h2 h3 h4 h5 h6
    · exact ⟨1000, by decide, rfl⟩
    · exact ⟨300000, by decide, rfl⟩
    · exact ⟨1800000, by decide, rfl⟩
    · exact ⟨7200000, by decide, rfl⟩
    · exact ⟨28800000, by decide, rfl⟩
    · exact ⟨86400000, by decide, rfl⟩
    · exfalso
      norm_num at h6
      omega
  obtain ⟨r, hr0, hsel⟩ := hsel
  unfold Controllers.influx_data_query
  rw [hsel]
  have ht : pyTruthy (some r) = true := by simp [pyTruthy]; omega
  simp [assert_truthy, ht, Controllers.get_response]

/-- Witness for the amended C2: a two-hour look-back issues the
current-snapshot query. -/
theorem c2_amended_current_only_query_independent_of_look_back_witness :
    Controllers.influx_data_query 1625000000000 7200000 = some FAQuery.get_controllers :=
  c2_amended_current_only_query_independent_of_look_back 1625000000000 7200000
    (by decide)

/-- Claim C8 is false as stated: with a 200-year look-back no table entry's
retention covers it, yet selection returns the configured minimum (1 s), not
the coarsest entry's resolution (24 h). -/
theorem c8_counterexample :
    (∀ e ∈ METRIC_RESOLUTION_TO_RETENTION_TIME,
      ¬((6307200000000 : Int) ≤ (e.2 : Int))) ∧
    select_resolution (some 1000) 6307200000000 = some 1000 ∧
    select_resolution (some 1000) 6307200000000 ≠ some 86400000 := by
  decide

/-- Claim C8 amended: when no table entry's retention window covers the
look-back, the selection loop never breaks and returns the configured minimum
resolution unchanged (its initial value), not the coarsest entry. -/
theorem c8_amended_fallback_is_configured_minimum (min_resolution : Option Nat)
    (delta : Int)
    (h : ∀ e ∈ METRIC_RESOLUTION_TO_RETENTION_TIME, ¬(delta ≤ (e.2 : Int))) :
    select_resolution min_resolution delta = min_resolution :=
  select_resolution_from_all_expired min_resolution delta _ h

/-- Witness for the amended C8: the 200-year look-back with minimum 1 s
returns 1 s. -/
theorem c8_amended_fallback_is_configured_minimum_witness :
    select_resolution (some 1000) 6307200000000 = some 1000 :=
  c8_amended_fallback_is_configured_minimum (some 1000) 6307200000000
    (by decide)

/-- Claim C9: resolution selection is deterministic and free of hidden state —
two runs on identical inputs (configured minimum, look-back, resolution table)
yield the identical selected resolution. -/
theorem c9_selection_deterministic (m₁ m₂ : Option Nat) (d₁ d₂ : Int)
    (t₁ t₂ : List (Nat × Nat)) (hm : m₁ = m₂) (hd : d₁ = d₂) (ht : t₁ = t₂) :
    select_resolution_from m₁ d₁ t₁ = select_resolution_from m₂ d₂ t₂ := by
  rw [hm, hd, ht]

/-- Witness for C9: two identical runs on the real table agree. -/
theorem c9_selection_deterministic_witness :
    select_resolution_from (some 30000) 7200000 METRIC_RESOLUTION_TO_RETENTION_TIME =
      select_resolution_from (some 30000) 7200000 METRIC_RESOLUTION_TO_RETENTION_TIME :=
  c9_selection_deterministic (some 30000) (some 30000) 7200000 7200000
    METRIC_RESOLUTION_TO_RETENTION_TIME METRIC_RESOLUTION_TO_RETENTION_TIME
    rfl rfl rfl

/-- Claim C10: constructing a `BaseCollector` with a non-zero override not in
the class's `RESOLUTIONS` raises `ValueError`; every successful construction
stores the supplied override or, when none (or a falsy one) is supplied, the
first element of `RESOLUTIONS` — so the stored `min_resolution` is always a
member of `RESOLUTIONS`. -/
theorem c10_init_min_resolution_invariant (RESOLUTIONS : List (Option Nat))
    (mr : Option Nat) :
    (∀ m : Nat, mr = some m → 0 < m → some m ∉ RESOLUTIONS →
      BaseCollector.init RESOLUTIONS mr = InitResult.valueError) ∧
    (∀ r, BaseCollector.init RESOLUTIONS mr = InitResult.ok r →
      r ∈ RESOLUTIONS ∧
      (pyTruthy mr = true → r = mr) ∧
      (pyTruthy mr = false → RESOLUTIONS.head? = some r)) := by
  constructor
  · intro m hmr hpos hnotin
    subst hmr
    have ht : pyTruthy (some m) = true := by simp [pyTruthy]; omega
    unfold BaseCollector.init
    rw [if_pos ht, if_neg hnotin]
  · intro r hok
    unfold BaseCollector.init at hok
    split at hok
    case isTrue ht =>
      split at hok
      case isTrue hin =>
        injection hok with h
        subst h
        exact ⟨hin, fun _ => rfl, fun hf => absurd ht (by simp [hf])⟩
      case isFalse hin =>
        exact InitResult.noConfusion hok
    case isFalse ht =>
      rw [Bool.not_eq_true] at ht
      cases hh : RESOLUTIONS.head? with
      | none =>
        rw [hh] at hok
        exact InitResult.noConfusion hok
      | some r0 =>
        rw [hh] at hok
        injection hok with h
        subst h
        refine ⟨?_, fun htt => absurd htt (by simp [ht]), fun _ => rfl⟩
        cases RESOLUTIONS with
        | nil => simp at hh
        | cons a l =>
          simp only [List.head?_cons, Option.some.injEq] at hh
          subst hh
          exact List.mem_cons_self _ _

/-- Witness for C10: a 500 ms override against a class supporting only 30 s
and 5 min raises `ValueError`. -/
theorem c10_init_min_resolution_invariant_witness :
    BaseCollector.init [some 30000, some 300000] (some 500) = InitResult.valueError :=
  (c10_init_min_resolution_invariant [some 30000, some 300000] (some 500)).1
    500 rfl (by decide) (by decide)

/-- The per-collector loop treats the collectors independently: the puts of a
concatenation are the concatenation of the puts. -/
theorem collect_cycle_puts_append (a b : List CollectorOutcome) :
    collect_cycle_puts (a ++ b) = collect_cycle_puts a ++ collect_cycle_puts b := by
  induction a with
  | nil => rfl
  | cons hd tl ih =>
    cases hd with
    | ok points => simp [collect_cycle_puts, ih]
    | pureErrorResponse => simp [collect_cycle_puts, ih]
    | otherException => simp [collect_cycle_puts, ih]

/-- Claim C3 is false as stated: a collector invocation that yields zero
points still performs a `queue.put` — `collect_thread` puts the materialised
list unconditionally, so an empty batch is enqueued. -/
theorem c3_counterexample :
    collect_cycle_puts [CollectorOutcome.ok []] = [[]] ∧
    collect_cycle_puts [CollectorOutcome.ok []] ≠ [] := by
  decide

/-- Claim C3 amended: a collector yielding zero points does enqueue its
(empty) batch; the delivery worker passes over an empty batch without
attempting any sink write and keeps consuming. -/
theorem c3_amended_empty_batches_enqueued_but_not_written
    (pre post : List CollectorOutcome) (outcome : WriteOutcome) :
    collect_cycle_puts (pre ++ CollectorOutcome.ok [] :: post) =
      collect_cycle_puts pre ++ [] :: collect_cycle_puts post ∧
    (influxdb_writer_step (QueueItem.batch []) outcome).writes = 0 ∧
    (influxdb_writer_step (QueueItem.batch []) outcome).continues = true := by
  refine ⟨?_, rfl, rfl⟩
  rw [collect_cycle_puts_append]
  rfl

/-- Claim C4: a collector that raises `PureErrorResponse` or any other
exception contributes no `queue.put` for this cycle, the exception is absorbed
at the per-collector boundary, and the puts of every other collector in
configured order are unchanged. -/
theorem c4_collector_failure_is_isolated (pre post : List CollectorOutcome)
    (e : CollectorOutcome)
    (h : e = CollectorOutcome.pureErrorResponse ∨ e = CollectorOutcome.otherException) :
    collect_cycle_puts (pre ++ e :: post) =
      collect_cycle_puts pre ++ collect_cycle_puts post := by
  rw [collect_cycle_puts_append]
  rcases h with h | h <;> rw [h] <;> rfl

/-- Witness for C4: with three collectors of which the middle one raises
`PureErrorResponse`, the other two batches are still put, in order. -/
theorem c4_collector_failure_is_isolated_witness :
    collect_cycle_puts ([CollectorOutcome.ok [samplePoint]] ++
        CollectorOutcome.pureErrorResponse :: [CollectorOutcome.ok []]) =
      collect_cycle_puts [CollectorOutcome.ok [samplePoint]] ++
        collect_cycle_puts [CollectorOutcome.ok []] :=
  c4_collector_failure_is_isolated [CollectorOutcome.ok [samplePoint]]
    [CollectorOutcome.ok []] CollectorOutcome.pureErrorResponse (Or.inl rfl)

/-- Claim C5: for every non-empty dequeued batch the worker makes exactly one
`write_points` attempt; under every one of the four failure classes (and under
success) the batch is dropped — nothing is requeued, nothing is retried — and
the loop continues with the next queue item. -/
theorem c5_exactly_one_write_attempt_then_drop (points : List InfluxDataPoint)
    (outcome : WriteOutcome) (h : points ≠ []) :
    (influxdb_writer_step (QueueItem.batch points) outcome).writes = 1 ∧
    (influxdb_writer_step (QueueItem.batch points) outcome).requeued = [] ∧
    (influxdb_writer_step (QueueItem.batch points) outcome).continues = true := by
  cases points with
  | nil => exact absurd rfl h
  | cons p rest => cases outcome <;> exact ⟨rfl, rfl, rfl⟩

/-- Witness for C5: a one-point batch failing with a connection error is
written once, dropped, and the worker continues. -/
theorem c5_exactly_one_write_attempt_then_drop_witness :
    (influxdb_writer_step (QueueItem.batch [samplePoint]) WriteOutcome.connectionError).writes = 1 ∧
    (influxdb_writer_step (QueueItem.batch [samplePoint]) WriteOutcome.connectionError).requeued = [] ∧
    (influxdb_writer_step (QueueItem.batch [samplePoint]) WriteOutcome.connectionError).continues = true :=
  c5_exactly_one_write_attempt_then_drop [samplePoint] WriteOutcome.connectionError
    (by decide)

/-- Claim C6: on the first termination signal the handler's action sequence
puts the `STOP` signal strictly after joining every collector thread and
strictly after `queue.join()` (full drain of previously enqueued batches); and
a writer that dequeues the stop signal terminates without any further queue
read. -/
theorem c6_graceful_shutdown_ordering (signum : Nat)
    (h : signum = SIGTERM ∨ signum = SIGINT) :
    List.indexOf ShutdownEvent.joinCollectorThreads (exit_handler signum false).1 <
      List.indexOf ShutdownEvent.putStopSignal (exit_handler signum false).1 ∧
    List.indexOf ShutdownEvent.queueJoin (exit_handler signum false).1 <
      List.indexOf ShutdownEvent.putStopSignal (exit_handler signum false).1 ∧
    ShutdownEvent.putStopSignal ∈ (exit_handler signum false).1 ∧
    (∀ (rest : List (QueueItem × WriteOutcome)) (outcome : WriteOutcome),
      influxdb_writer_reads ((QueueItem.stopSignal, outcome) :: rest) =
        [QueueItem.stopSignal]) := by
  have hev : (exit_handler signum false).1 =
      [ShutdownEvent.setShouldStop, ShutdownEvent.joinCollectorThreads,
        ShutdownEvent.queueJoin, ShutdownEvent.putStopSignal,
        ShutdownEvent.joinWriterThread] := by
    rcases h with h | h <;> rw [h] <;> rfl
  rw [hev]
  refine ⟨by decide, by decide, by decide, ?_⟩
  intro rest outcome
  rfl

/-- Witness for C6: the ordering holds for a first `SIGTERM`. -/
theorem c6_graceful_shutdown_ordering_witness :
    List.indexOf ShutdownEvent.joinCollectorThreads (exit_handler SIGTERM false).1 <
      List.indexOf ShutdownEvent.putStopSignal (exit_handler SIGTERM false).1 ∧
    List.indexOf ShutdownEvent.queueJoin (exit_handler SIGTERM false).1 <
      List.indexOf ShutdownEvent.putStopSignal (exit_handler SIGTERM false).1 ∧
    ShutdownEvent.putStopSignal ∈ (exit_handler SIGTERM false).1 ∧
    (∀ (rest : List (QueueItem × WriteOutcome)) (outcome : WriteOutcome),
      influxdb_writer_reads ((QueueItem.stopSignal, outcome) :: rest) =
        [QueueItem.stopSignal]) :=
  c6_graceful_shutdown_ordering SIGTERM (Or.inl rfl)

/-- Claim C7: a second `SIGTERM`/`SIGINT` while `SHOULD_STOP` is already set
exits the process immediately with code 1, performing none of the graceful
join/drain steps. -/
theorem c7_second_signal_forces_exit_1 (signum : Nat)
    (h : signum = SIGTERM ∨ signum = SIGINT) :
    exit_handler signum true = ([ShutdownEvent.forceExit], true, some 1) ∧
    ShutdownEvent.joinCollectorThreads ∉ (exit_handler signum true).1 ∧
    ShutdownEvent.queueJoin ∉ (exit_handler signum true).1 ∧
    ShutdownEvent.putStopSignal ∉ (exit_handler signum true).1 := by
  rcases h with h | h <;> rw [h] <;> exact ⟨rfl, by decide, by decide, by decide⟩

/-- Witness for C7: a repeated `SIGINT` exits 1 at once. -/
theorem c7_second_signal_forces_exit_1_witness :
    exit_handler SIGINT true = ([ShutdownEvent.forceExit], true, some 1) ∧
    ShutdownEvent.joinCollectorThreads ∉ (exit_handler SIGINT true).1 ∧
    ShutdownEvent.queueJoin ∉ (exit_handler SIGINT true).1 ∧
    ShutdownEvent.putStopSignal ∉ (exit_handler SIGINT true).1 :=
  c7_second_signal_forces_exit_1 SIGINT (Or.inr rfl)

end ArrayMetricsToInflux
